import Mathlib

/-
Verification of the UDP input metrics subsystem
(filebeat/input/udp/input.go): the address-key resolution performed at
construction, the /proc/net/udp table parser, the per-packet metric
updates, construction and shutdown of the metrics object, and the
poller stop handshake.

Modelling conventions: Go strings and byte slices are lists of
characters, Go uint64 counters are naturals reduced modulo 2^64, Go
int64 values are integers with the parser-enforced range checks, and
time instants are integer nanoseconds.  net.LookupIP is an external
collaborator and is passed in as an oracle mapping a host name to the
list of returned IP addresses (each a list of bytes), none meaning a
lookup error.
-/

set_option maxRecDepth 10000

/-- ASCII lowercase folding: the fragment of strings.EqualFold
exercised by the hexadecimal socket keys, which are ASCII. -/
def foldChar (c : Char) : Char :=
  if 'A' ≤ c ∧ c ≤ 'Z' then Char.ofNat (c.toNat + 32) else c

/-- strings.EqualFold restricted to ASCII input. -/
def eqFold (a b : List Char) : Bool :=
  a.map foldChar == b.map foldChar

/-- contains (input.go): true when b case-insensitively equals one of
the candidate address keys. -/
def contains (b : List Char) (addr : List (List Char)) : Bool :=
  addr.any (fun a => eqFold b a)

/-- unicode.IsSpace restricted to the ASCII whitespace characters used
by bytes.Fields. -/
def isSpaceB (c : Char) : Bool :=
  c == ' ' || c == '\t' || c == '\n' || c == '\x0B' || c == '\x0C' || c == '\r'

/-- Accumulator loop for bytes.Fields. -/
def fieldsAux : List Char → List Char → List (List Char)
  | [], acc => if acc.isEmpty then [] else [acc.reverse]
  | c :: cs, acc =>
    if isSpaceB c then
      if acc.isEmpty then fieldsAux cs [] else acc.reverse :: fieldsAux cs []
    else fieldsAux cs (c :: acc)

/-- bytes.Fields: split on runs of whitespace, dropping empty fields. -/
def fields (l : List Char) : List (List Char) :=
  fieldsAux l []

/-- Accumulator loop for splitting on newlines. -/
def splitNlAux : List Char → List Char → List (List Char)
  | [], acc => [acc.reverse]
  | c :: cs, acc =>
    if c = '\n' then acc.reverse :: splitNlAux cs [] else splitNlAux cs (c :: acc)

/-- bytes.Split(b, "\n"): n newlines produce n+1 pieces. -/
def splitNl (b : List Char) : List (List Char) :=
  splitNlAux b []

/-- strings.Cut / bytes.Cut on the first colon: some (before, after)
when a colon is present, none otherwise. -/
def cutColon : List Char → Option (List Char × List Char)
  | [] => none
  | c :: cs =>
    if c = ':' then some ([], cs)
    else
      match cutColon cs with
      | none => none
      | some (a, b) => some (c :: a, b)

/-- Decimal digit value. -/
def digitVal (c : Char) : Option Nat :=
  if '0' ≤ c ∧ c ≤ '9' then some (c.toNat - 48) else none

/-- Hexadecimal digit value (both cases), as accepted by
strconv.ParseInt with base 16. -/
def hexVal (c : Char) : Option Nat :=
  if '0' ≤ c ∧ c ≤ '9' then some (c.toNat - 48)
  else if 'a' ≤ c ∧ c ≤ 'f' then some (c.toNat - 87)
  else if 'A' ≤ c ∧ c ≤ 'F' then some (c.toNat - 55)
  else none

/-- Digit-accumulation loop shared by the numeric parsers. -/
def digitsCore (val : Char → Option Nat) (base : Nat) : List Char → Nat → Option Nat
  | [], acc => some acc
  | c :: cs, acc =>
    match val c with
    | none => none
    | some d => digitsCore val base cs (acc * base + d)

/-- At least one digit, all characters digits of the base. -/
def parseDigits (val : Char → Option Nat) (base : Nat) : List Char → Option Nat
  | [] => none
  | l => digitsCore val base l 0

/-- strconv.ParseInt with the given digit alphabet and a signed range
[lo, hi]: optional sign, at least one digit, every character a digit,
result within the range (otherwise ErrRange). -/
def parseIntRange (val : Char → Option Nat) (base : Nat) (lo hi : Int) (s : List Char) : Option Int :=
  match s with
  | '+' :: rest =>
    match parseDigits val base rest with
    | none => none
    | some n => if lo ≤ (n : Int) ∧ (n : Int) ≤ hi then some n else none
  | '-' :: rest =>
    match parseDigits val base rest with
    | none => none
    | some n => if lo ≤ -(n : Int) ∧ -(n : Int) ≤ hi then some (-(n : Int)) else none
  | _ =>
    match parseDigits val base s with
    | none => none
    | some n => if lo ≤ (n : Int) ∧ (n : Int) ≤ hi then some n else none

/-- strconv.ParseInt(port, 10, 16) exactly as newInputMetrics calls it:
base 10, signed 16-bit range. -/
def parsePort (s : List Char) : Option Int :=
  parseIntRange digitVal 10 (-32768) 32767 s

/-- strconv.ParseInt(s, 16, 64) as procNetUDP calls it for the
rx_queue and drops fields: base 16, signed 64-bit range. -/
def parseHex64 (s : List Char) : Option Int :=
  parseIntRange hexVal 16 (-(2 ^ 63)) (2 ^ 63 - 1) s

/-- strconv.FormatInt(i, 16): lowercase hexadecimal, leading minus sign
for negative input, no padding. -/
def formatIntHex (i : Int) : List Char :=
  if i < 0 then '-' :: Nat.toDigits 16 i.natAbs else Nat.toDigits 16 i.toNat

/-- The fmt %X verb on an unsigned value: uppercase hexadecimal, no
padding. -/
def toHexUpper (n : Nat) : List Char :=
  (Nat.toDigits 16 n).map Char.toUpper

/-- binary.LittleEndian.Uint32 on a 4-byte slice. -/
def le32 : List Nat → Nat
  | [b0, b1, b2, b3] => b0 + b1 * 256 + b2 * 65536 + b3 * 16777216
  | _ => 0

/-- net.IP.To4: the 4-byte form of an IPv4 or IPv4-mapped address,
none for anything else. -/
def to4 (ip : List Nat) : Option (List Nat) :=
  if ip.length = 4 then some ip
  else if ip.length = 16 ∧ ip.take 12 = [0, 0, 0, 0, 0, 0, 0, 0, 0, 0, 255, 255] then
    some (ip.drop 12)
  else none

/-- The address-resolution fragment of newInputMetrics (input.go lines
191-214): cut the device on the first colon, look the host up, parse
the port with ParseInt(port, 10, 16), format it with FormatInt(p, 16),
and build one "%X:%s" key per IPv4 result, skipping non-IPv4
addresses.  none models the three early-return failure paths (no
colon, lookup error, port parse error). -/
def resolveAddr (lookup : List Char → Option (List (List Nat))) (device : List Char) :
    Option (List (List Char)) :=
  match cutColon device with
  | none => none
  | some (host, port) =>
    match lookup host with
    | none => none
    | some ips =>
      match parsePort port with
      | none => none
      | some p =>
        some (ips.filterMap fun ip =>
          (to4 ip).map fun b4 => toHexUpper (le32 b4) ++ ':' :: formatIntHex p)

/-- Failure cases of procNetUDP, one per distinct error return in the
source: unreadable file, fewer than two lines, no matching line, no
colon in the tx_queue:rx_queue field, unparsable rx_queue, unparsable
drops. -/
inductive ProcErr
  | readErr
  | noLine
  | notFound
  | noRxField
  | badRx
  | badDrops
deriving DecidableEq

deriving instance DecidableEq for Except

/-- The scan of lines[1:] in procNetUDP: a line is processed when it
has more than 12 whitespace-separated fields and its second field
case-insensitively equals one of the candidate keys; on the first such
line, the part of field 4 after the colon is hex-parsed as rx_queue
and field 12 as drops, and the scan stops. -/
def scanLines (addr : List (List Char)) : List (List Char) → Except ProcErr (Int × Int)
  | [] => .error .notFound
  | l :: rest =>
    let f := fields l
    if 12 < f.length ∧ contains (f.getD 1 []) addr = true then
      match cutColon (f.getD 4 []) with
      | none => .error .noRxField
      | some (_, r) =>
        match parseHex64 r with
        | none => .error .badRx
        | some rx =>
          match parseHex64 (f.getD 12 []) with
          | none => .error .badDrops
          | some d => .ok (rx, d)
    else scanLines addr rest

/-- procNetUDP (input.go lines 260-288) with the file read modelled as
an Option: none is an os.ReadFile error.  Splits the content on
newlines, requires at least two lines, and scans the lines after the
header. -/
def procNetUDP (content : Option (List Char)) (addr : List (List Char)) :
    Except ProcErr (Int × Int) :=
  match content with
  | none => .error .readErr
  | some b =>
    if (splitNl b).length < 2 then .error .noLine
    else scanLines addr ((splitNl b).drop 1)

/-- The Go uint64 conversion of an int64 value. -/
def intToUint64 (i : Int) : Nat :=
  (i % (2 : Int) ^ 64).toNat

/-- The inputMetrics struct.  Registry counters and gauges are the
uint64 values held by the monitoring variables; the two go-metrics
reservoirs are modelled by the full list of values inserted into them
(the reservoir retains a uniform random sample of these, which the
insertion-order-free claims do not depend on); done records whether
the done channel was allocated, equivalently whether the poller
goroutine was started; addrs is the key list captured by that
goroutine. -/
structure InputMetrics where
  device : List Char
  bufferLen : Nat
  packets : Nat
  bytes : Nat
  rxQueue : Nat
  drops : Nat
  lastPacket : Option Int
  arrivalPeriod : List Int
  processingTime : List Int
  done : Bool
  addrs : List (List Char)
deriving DecidableEq

/-- The inputMetrics value built by newInputMetrics before the poller
eligibility gate: counters at zero, gauges at zero, device and buffer
length set, no last packet, empty reservoirs, no poller. -/
def freshMetrics (device : List Char) (buflen : Nat) : InputMetrics :=
  { device := device
    bufferLen := buflen % 2 ^ 64
    packets := 0
    bytes := 0
    rxQueue := 0
    drops := 0
    lastPacket := none
    arrivalPeriod := []
    processingTime := []
    done := false
    addrs := [] }

/-- The method (*inputMetrics).log on a non-nil receiver, at clock reading now:
inserts time.Since(timestamp) = now - ts nanoseconds into
processingTime, adds 1 to packets and the data length to bytes (both
uint64), inserts ts - lastPacket into arrivalPeriod when a previous
packet exists, and records ts as the last packet time. -/
def InputMetrics.log (m : InputMetrics) (now : Int) (dataLen : Nat) (ts : Int) : InputMetrics :=
  { m with
    processingTime := (now - ts) :: m.processingTime
    packets := (m.packets + 1) % 2 ^ 64
    bytes := (m.bytes + dataLen) % 2 ^ 64
    arrivalPeriod :=
      match m.lastPacket with
      | some lp => (ts - lp) :: m.arrivalPeriod
      | none => m.arrivalPeriod
    lastPacket := some ts }

/-- One tick of (*inputMetrics).poll: on a procNetUDP error the tick
only logs and continues, leaving the metrics untouched; on success it
overwrites the rxQueue and drops gauges with the uint64 conversions of
the parsed values. -/
def pollTick (m : InputMetrics) (addr : List (List Char)) (content : Option (List Char)) :
    InputMetrics :=
  match procNetUDP content addr with
  | .error _ => m
  | .ok (rx, d) => { m with rxQueue := intToUint64 rx, drops := intToUint64 d }

/-- newInputMetrics (input.go lines 166-220): nil for an empty id;
otherwise registers the metrics and, when the poll interval is
positive and the OS is linux, resolves the device address and starts
the poller goroutine — but only if resolution succeeded; each of the
three resolution failures returns before the done channel is made. -/
def newInputMetrics (id : String) (device : List Char) (buflen : Nat) (poll : Int)
    (goos : String) (lookup : List Char → Option (List (List Nat))) : Option InputMetrics :=
  if id = "" then none
  else if 0 < poll ∧ goos = "linux" then
    match resolveAddr lookup device with
    | none => some (freshMetrics device buflen)
    | some addr => some { freshMetrics device buflen with done := true, addrs := addr }
  else some (freshMetrics device buflen)

/-- The method (*inputMetrics).log with the nil-receiver guard. -/
def logOpt (f : Option InputMetrics) (now : Int) (dataLen : Nat) (ts : Int) :
    Option InputMetrics :=
  match f with
  | none => none
  | some m => some (m.log now dataLen ts)

/-- Externally visible effects of (*inputMetrics).close: whether the
stop signal was sent on the done channel and whether the registry
unregister function was called. -/
structure CloseEffect where
  stopSent : Bool
  unregistered : Bool
deriving DecidableEq

/-- The method (*inputMetrics).close: a nil receiver returns at once; otherwise
the stop signal is sent exactly when the done channel is non-nil, and
unregister is always called. -/
def closeEffect : Option InputMetrics → CloseEffect
  | none => ⟨false, false⟩
  | some m => ⟨m.done, true⟩

/-- One record call of the facade: the clock reading at the call, the
packet receipt timestamp, and the packet length. -/
structure RecordCall where
  now : Int
  ts : Int
  len : Nat
deriving DecidableEq

/-- A sequence of (*inputMetrics).log calls. -/
def runLog : InputMetrics → List RecordCall → InputMetrics
  | m, [] => m
  | m, c :: rest => runLog (m.log c.now c.len c.ts) rest

/-- The lookup oracle for the loopback literal: net.LookupIP on
"127.0.0.1" returns exactly that address. -/
def lookupLoopback (host : List Char) : Option (List (List Nat)) :=
  if host = "127.0.0.1".toList then some [[127, 0, 0, 1]] else none

/-- A table line in real /proc/net/udp shape: exactly 13 fields. -/
def c6line : List Char :=
  "   0: 0100007F:1F90 00000000:0000 07 00000000:0000001A 00:00000000 00000000  1000        0 12345 2 ffff8880 5".toList

def c6table : List Char :=
  "  sl  local_address rem_address   st tx_queue rx_queue tr tm->when retrnsmt   uid  timeout inode ref pointer drops\n".toList ++ c6line

/-
Interleaving model of the shutdown handshake between
(*inputMetrics).poll and (*inputMetrics).close when the poller was
started.  The poller loop is either blocked in its select, or between
receiving a tick and writing the gauges; close is either not yet
called, blocked sending on the unbuffered done channel, past the send
and unregistering, or returned.  The unbuffered send completes only
together with the poller taking the done branch of its select; with
both channels ready the select may take either branch, which the model
leaves nondeterministic.
-/

/-- Position of the poller goroutine in its loop. -/
inductive PollerLoc
  | selecting
  | writing
  | stopped
deriving DecidableEq

/-- Position of the close caller. -/
inductive CloseLoc
  | notCalled
  | sending
  | unregistering
  | returned
deriving DecidableEq

/-- Joint state of the poller goroutine and the close caller. -/
structure Sys where
  poller : PollerLoc
  closer : CloseLoc
deriving DecidableEq

/-- Labels of the observable steps. -/
inductive PollLabel
  | tickFire
  | writeGauges
  | stopRendezvous
  | closeCall
  | closeReturn
deriving DecidableEq

/-- Interleaving steps: the timer fires and the poller leaves its
select to poll; the poller writes the gauges and returns to the
select; close is called and blocks on the done channel send; the
unbuffered send completes as a rendezvous, stopping the poller and
letting close proceed; close unregisters and returns. -/
inductive SysStep : Sys → PollLabel → Sys → Prop
  | tick (c : CloseLoc) : SysStep ⟨.selecting, c⟩ .tickFire ⟨.writing, c⟩
  | write (c : CloseLoc) : SysStep ⟨.writing, c⟩ .writeGauges ⟨.selecting, c⟩
  | callClose (p : PollerLoc) : SysStep ⟨p, .notCalled⟩ .closeCall ⟨p, .sending⟩
  | rendezvous : SysStep ⟨.selecting, .sending⟩ .stopRendezvous ⟨.stopped, .unregistering⟩
  | finish (p : PollerLoc) : SysStep ⟨p, .unregistering⟩ .closeReturn ⟨p, .returned⟩

/-- States reachable from the initial state: poller blocked in its
select, close not yet called. -/
inductive SysReach : Sys → Prop
  | init : SysReach ⟨.selecting, .notCalled⟩
  | step {s s2 : Sys} {l : PollLabel} : SysReach s → SysStep s l s2 → SysReach s2

/-- Once close is past the rendezvous, the poller has stopped. -/
lemma sysReach_stopped {s : Sys} (h : SysReach s) :
    (s.closer = CloseLoc.unregistering ∨ s.closer = CloseLoc.returned) →
    s.poller = PollerLoc.stopped := by
  induction h with
  | init => intro hc; rcases hc with hc | hc <;> exact CloseLoc.noConfusion hc
  | step hr hstep ih =>
    cases hstep with
    | tick c => intro hc; exact PollerLoc.noConfusion (ih hc)
    | write c => intro hc; exact PollerLoc.noConfusion (ih hc)
    | callClose p => intro hc; rcases hc with hc | hc <;> exact CloseLoc.noConfusion hc
    | rendezvous => intro _; rfl
    | finish p => intro _; exact ih (Or.inl rfl)

/-- The packets counter after a call sequence, with the uint64
wrap-around made explicit. -/
lemma runLog_packets (calls : List RecordCall) :
    ∀ m : InputMetrics, m.packets < 2 ^ 64 →
      (runLog m calls).packets = (m.packets + calls.length) % 2 ^ 64 := by
  induction calls with
  | nil =>
    intro m hm
    simp [runLog]
    omega
  | cons c cs ih =>
    intro m hm
    have h1 : (m.log c.now c.len c.ts).packets = (m.packets + 1) % 2 ^ 64 := rfl
    have h2 : (m.log c.now c.len c.ts).packets < 2 ^ 64 := by
      rw [h1]; exact Nat.mod_lt _ (by norm_num)
    show (runLog (m.log c.now c.len c.ts) cs).packets = _
    rw [ih _ h2, h1, Nat.mod_add_mod]
    have h3 : m.packets + 1 + cs.length = m.packets + (c :: cs).length := by
      simp [List.length_cons]; omega
    rw [h3]

/-- The bytes counter after a call sequence, with the uint64
wrap-around made explicit. -/
lemma runLog_bytes (calls : List RecordCall) :
    ∀ m : InputMetrics, m.bytes < 2 ^ 64 →
      (runLog m calls).bytes = (m.bytes + (calls.map RecordCall.len).sum) % 2 ^ 64 := by
  induction calls with
  | nil =>
    intro m hm
    simp [runLog]
    omega
  | cons c cs ih =>
    intro m hm
    have h1 : (m.log c.now c.len c.ts).bytes = (m.bytes + c.len) % 2 ^ 64 := rfl
    have h2 : (m.log c.now c.len c.ts).bytes < 2 ^ 64 := by
      rw [h1]; exact Nat.mod_lt _ (by norm_num)
    show (runLog (m.log c.now c.len c.ts) cs).bytes = _
    rw [ih _ h2, h1, Nat.mod_add_mod]
    have h3 : m.bytes + c.len + (cs.map RecordCall.len).sum =
        m.bytes + ((c :: cs).map RecordCall.len).sum := by
      simp [List.map_cons]; omega
    rw [h3]

/-- A scan with an empty candidate key list matches no line. -/
lemma scanLines_empty_addr (lines : List (List Char)) :
    scanLines [] lines = .error .notFound := by
  induction lines with
  | nil => rfl
  | cons l ls ih =>
    rw [scanLines]
    rw [if_neg]
    · exact ih
    · intro hc
      exact absurd hc.2 (by simp [contains])

/-- A scan in which every line has at most 12 fields or a second field
matching no candidate key extracts nothing. -/
lemma scanLines_no_candidate (addr : List (List Char)) (lines : List (List Char))
    (h : ∀ l ∈ lines, (fields l).length ≤ 12 ∨ contains ((fields l).getD 1 []) addr = false) :
    scanLines addr lines = .error .notFound := by
  induction lines with
  | nil => rfl
  | cons l ls ih =>
    rw [scanLines]
    rw [if_neg]
    · exact ih fun x hx => h x (List.mem_cons_of_mem l hx)
    · intro hc
      rcases h l (List.mem_cons_self l ls) with hlen | hmatch
      · omega
      · rw [hc.2] at hmatch
        exact Bool.noConfusion hmatch

/-- C1: the claim states that resolving "127.0.0.1:8080" yields the
key set consisting of eight zero-padded uppercase hex digits, a colon,
and the port in hex, i.e. exactly 0100007F:1F90.  The code instead
formats the address with the unpadded %X verb and the port with
lowercase FormatInt, producing 100007F:1f90, a key that can never
case-insensitively equal the zero-padded form the kernel table (and
procNetUDP's own documentation, xxxxxxxx:xxxx) uses. -/
theorem c1_key_format :
    resolveAddr lookupLoopback ("127.0.0.1:8080".toList) = some ["100007F:1f90".toList] ∧
    eqFold ("100007F:1f90".toList) ("0100007F:1F90".toList) = false := by
  decide

/-- C2: for every sequence of record calls with byte sizes s1..sn and
strictly increasing timestamps, starting from a freshly constructed
metrics object, the packets counter ends at n and the bytes counter at
s1 + ... + sn, as long as neither total wraps the uint64 counters. -/
theorem c2_counters (device : List Char) (buflen : Nat) (calls : List RecordCall)
    (_hinc : List.Pairwise (fun a b => a.ts < b.ts) calls)
    (hn : calls.length < 2 ^ 64)
    (hs : (calls.map RecordCall.len).sum < 2 ^ 64) :
    (runLog (freshMetrics device buflen) calls).packets = calls.length ∧
    (runLog (freshMetrics device buflen) calls).bytes = (calls.map RecordCall.len).sum := by
  constructor
  · rw [runLog_packets calls (freshMetrics device buflen) (by norm_num [freshMetrics])]
    show (0 + calls.length) % 2 ^ 64 = _
    rw [Nat.zero_add]
    exact Nat.mod_eq_of_lt hn
  · rw [runLog_bytes calls (freshMetrics device buflen) (by norm_num [freshMetrics])]
    show (0 + (calls.map RecordCall.len).sum) % 2 ^ 64 = _
    rw [Nat.zero_add]
    exact Nat.mod_eq_of_lt hs

/-- Witness for C2 at a concrete two-call sequence. -/
theorem c2_counters_witness :
    (runLog (freshMetrics [] 0) [⟨10, 1, 3⟩, ⟨12, 2, 5⟩]).packets = 2 ∧
    (runLog (freshMetrics [] 0) [⟨10, 1, 3⟩, ⟨12, 2, 5⟩]).bytes = 8 :=
  c2_counters [] 0 [⟨10, 1, 3⟩, ⟨12, 2, 5⟩] (by decide) (by norm_num) (by norm_num)

/-- C3: a polling tick whose table read or parse fails leaves the
receive-queue-length and drop gauges exactly as they were; only a
successful poll overwrites them. -/
theorem c3_failed_poll_preserves_gauges (m : InputMetrics) (addr : List (List Char))
    (content : Option (List Char)) (e : ProcErr)
    (h : procNetUDP content addr = .error e) :
    (pollTick m addr content).rxQueue = m.rxQueue ∧
    (pollTick m addr content).drops = m.drops := by
  unfold pollTick
  rw [h]
  exact ⟨rfl, rfl⟩

/-- Witness for C3 at an unreadable table file. -/
theorem c3_failed_poll_preserves_gauges_witness :
    (pollTick (freshMetrics [] 0) [] none).rxQueue = (freshMetrics [] 0).rxQueue ∧
    (pollTick (freshMetrics [] 0) [] none).drops = (freshMetrics [] 0).drops :=
  c3_failed_poll_preserves_gauges (freshMetrics [] 0) [] none ProcErr.readErr rfl

/-- C4 counterexample: at a device with no colon — one of the three
address-resolution failures the claim enumerates — construction
returns before the done channel is made and before the poller
goroutine is started, so the poller never enters the running state,
contrary to the claim. -/
theorem c4_counterexample :
    (newInputMetrics "id" ("localhost".toList) 0 60 "linux" (fun _ => none)).map
      InputMetrics.done = some false := by
  decide

/-- C4 amended: when address resolution fails at construction (no
colon, lookup error, or invalid port), the poller is never started:
the done channel stays nil and no tick ever runs.  A tick operating
over an empty key set — which occurs only when resolution succeeds
with zero IPv4 results — deterministically yields NotFound on any
readable table with at least one line after the header. -/
theorem c4_failed_resolution_idle :
    (∀ (id : String) (device : List Char) (buflen : Nat) (poll : Int) (goos : String)
      (lookup : List Char → Option (List (List Nat))),
      id ≠ "" → resolveAddr lookup device = none →
      (newInputMetrics id device buflen poll goos lookup).map InputMetrics.done = some false) ∧
    (∀ b : List Char, 2 ≤ (splitNl b).length →
      procNetUDP (some b) [] = .error .notFound) := by
  constructor
  · intro id device buflen poll goos lookup hid hres
    unfold newInputMetrics
    rw [if_neg hid]
    by_cases hc : 0 < poll ∧ goos = "linux"
    · rw [if_pos hc, hres]
      rfl
    · rw [if_neg hc]
      rfl
  · intro b hb
    show (if (splitNl b).length < 2 then Except.error ProcErr.noLine
      else scanLines [] ((splitNl b).drop 1)) = Except.error ProcErr.notFound
    rw [if_neg (by omega)]
    exact scanLines_empty_addr _

/-- Witness for C4 amended: a concrete failing resolution and a
concrete two-line table scanned with no keys. -/
theorem c4_failed_resolution_idle_witness :
    (newInputMetrics "id" ("localhost".toList) 1 60 "linux" lookupLoopback).map
      InputMetrics.done = some false ∧
    procNetUDP (some ("header\nbody".toList)) [] = .error .notFound :=
  ⟨c4_failed_resolution_idle.1 "id" ("localhost".toList) 1 60 "linux" lookupLoopback
      (by decide) (by decide),
    c4_failed_resolution_idle.2 ("header\nbody".toList) (by decide)⟩

/-- C5: the claim states the port parse accepts every decimal value up
to 65535 and rejects only larger or non-numeric input.  The code calls
strconv.ParseInt(port, 10, 16), a signed 16-bit parse, so every valid
UDP port from 32768 to 65535 is rejected: 40000 and 65535 fail while
32767 and 8080 succeed, and the whole resolution of
"127.0.0.1:40000" fails with it. -/
theorem c5_port_parse_signed :
    parsePort ("40000".toList) = none ∧
    parsePort ("65535".toList) = none ∧
    parsePort ("32767".toList) = some 32767 ∧
    parsePort ("8080".toList) = some 8080 ∧
    resolveAddr lookupLoopback ("127.0.0.1:40000".toList) = none := by
  decide

/-- C6 counterexample: a line in the real shape of /proc/net/udp has
exactly 13 whitespace-separated fields; when its second field matches
a candidate key, procNetUDP extracts the rx_queue and drops values
from it, so lines with 13 fields are candidates, contrary to the
claim that more than 13 are required. -/
theorem c6_counterexample :
    (fields c6line).length = 13 ∧
    procNetUDP (some c6table) ["0100007F:1F90".toList] = .ok (26, 5) := by
  decide

/-- C6 amended: a table line is a candidate match only if it has more
than 12 (at least 13) whitespace-separated fields and its second field
case-insensitively equals a candidate key; for every line with 12 or
fewer fields, no queue/drop values are extracted from it regardless of
its second field. -/
theorem c6_field_threshold (addr : List (List Char)) (b : List Char) (rx d : Int)
    (h : ∀ l ∈ (splitNl b).drop 1, (fields l).length ≤ 12) :
    procNetUDP (some b) addr ≠ .ok (rx, d) := by
  have hdef : procNetUDP (some b) addr =
      (if (splitNl b).length < 2 then Except.error ProcErr.noLine
        else scanLines addr ((splitNl b).drop 1)) := rfl
  rw [hdef]
  by_cases hlen : (splitNl b).length < 2
  · rw [if_pos hlen]
    intro hok
    exact Except.noConfusion hok
  · rw [if_neg hlen, scanLines_no_candidate addr _ (fun l hl => Or.inl (h l hl))]
    intro hok
    exact Except.noConfusion hok

/-- Witness for C6: a table whose only data line has 12 fields, the
second of which equals the candidate key, yields no extraction. -/
theorem c6_field_threshold_witness :
    procNetUDP (some ("hdr\n0: 0100007F:1F90 a b c d e f g h i j".toList))
      ["0100007F:1F90".toList] ≠ .ok (26, 5) :=
  c6_field_threshold ["0100007F:1F90".toList]
    ("hdr\n0: 0100007F:1F90 a b c d e f g h i j".toList) 26 5 (by decide)

/-- C7 counterexample: recording a packet whose receipt timestamp (5)
lies after the clock reading (0) inserts -5 into the processing-time
reservoir: the inserted value is not clamped to zero. -/
theorem c7_counterexample :
    ((freshMetrics [] 0).log 0 3 5).processingTime = [-5] ∧ (-5 : Int) < 0 := by
  decide

/-- C7 amended: every record call inserts exactly now - receiptTime
nanoseconds into the processing-time reservoir, with no clamping; the
value is non-negative whenever the receipt timestamp does not lie
after the clock reading, and negative otherwise. -/
theorem c7_latency_unclamped (m : InputMetrics) (now : Int) (dataLen : Nat) (ts : Int) :
    (m.log now dataLen ts).processingTime = (now - ts) :: m.processingTime ∧
    (ts ≤ now → 0 ≤ now - ts) :=
  ⟨rfl, fun h => sub_nonneg.mpr h⟩

/-- Witness for C7 amended at a packet received at 4 and processed at
10. -/
theorem c7_latency_unclamped_witness :
    ((freshMetrics [] 0).log 10 3 4).processingTime = (10 - 4 : Int) :: [] ∧
    (0 : Int) ≤ 10 - 4 :=
  ⟨(c7_latency_unclamped (freshMetrics [] 0) 10 3 4).1,
    (c7_latency_unclamped (freshMetrics [] 0) 10 3 4).2 (by decide)⟩

/-- C8: a facade constructed with an empty identifier is nil, and the
nil facade is permanently inert: record leaves it nil and touches no
state, and close sends no stop signal and unregisters nothing. -/
theorem c8_empty_id_inert (device : List Char) (buflen : Nat) (poll : Int) (goos : String)
    (lookup : List Char → Option (List (List Nat))) (now : Int) (dataLen : Nat) (ts : Int) :
    newInputMetrics "" device buflen poll goos lookup = none ∧
    logOpt none now dataLen ts = none ∧
    closeEffect none = ⟨false, false⟩ := by
  refine ⟨?_, rfl, rfl⟩
  unfold newInputMetrics
  rw [if_pos rfl]

/-- The initial joint state of the handshake model: poller blocked in
its select, close not yet called. -/
def sysInit : Sys :=
  ⟨PollerLoc.selecting, CloseLoc.notCalled⟩

/-- tr is a valid labeled execution from s: each entry carries the
label of a step and the state it leads to. -/
def TraceFrom : Sys → List (PollLabel × Sys) → Prop
  | _, [] => True
  | s, e :: rest => SysStep s e.1 e.2 ∧ TraceFrom e.2 rest

/-- No step leaves the final state (poller stopped, close returned),
so a trace from it is empty. -/
lemma traceFrom_final : ∀ tr : List (PollLabel × Sys),
    TraceFrom ⟨PollerLoc.stopped, CloseLoc.returned⟩ tr → tr = [] := by
  intro tr h
  match tr with
  | [] => rfl
  | e :: rest => exact absurd h.1 (by intro hs; cases hs)

/-- Any closeReturn step in a trace from a reachable state happens
with the poller stopped, and nothing after it writes the gauges. -/
lemma traceFrom_closeReturn : ∀ (tr1 : List (PollLabel × Sys)) (s : Sys), SysReach s →
    ∀ (s2 : Sys) (tr2 : List (PollLabel × Sys)),
    TraceFrom s (tr1 ++ (PollLabel.closeReturn, s2) :: tr2) →
    s2.poller = PollerLoc.stopped ∧
    (tr2.map Prod.fst).contains PollLabel.writeGauges = false := by
  intro tr1
  induction tr1 with
  | nil =>
    intro s hs s2 tr2 h
    obtain ⟨hstep, hrest⟩ := h
    cases hstep with
    | finish p =>
      have hp : p = PollerLoc.stopped := sysReach_stopped hs (Or.inl rfl)
      subst hp
      have h2 : tr2 = [] := traceFrom_final tr2 hrest
      subst h2
      exact ⟨rfl, rfl⟩
  | cons e tr ih =>
    intro s hs s2 tr2 h
    obtain ⟨hstep, hrest⟩ := h
    exact ih e.2 (SysReach.step hs hstep) s2 tr2 hrest

/-- C9: in every execution of the poller loop interleaved with close,
at the moment the closeReturn step occurs the poller has already
observed the stop signal and stopped — the unbuffered done-channel
send is a synchronous rendezvous — and no gauge write occurs anywhere
after close has returned, even when a poll was in flight when close
was called. -/
theorem c9_close_handshake (tr1 : List (PollLabel × Sys)) (s2 : Sys)
    (tr2 : List (PollLabel × Sys))
    (h : TraceFrom sysInit (tr1 ++ (PollLabel.closeReturn, s2) :: tr2)) :
    s2.poller = PollerLoc.stopped ∧
    (tr2.map Prod.fst).contains PollLabel.writeGauges = false :=
  traceFrom_closeReturn tr1 sysInit SysReach.init s2 tr2 h

/-- Witness for C9: a concrete trace in which a poll is in flight when
close is called; the gauge write still happens before the rendezvous,
and close returns with the poller stopped. -/
theorem c9_close_handshake_witness :
    (⟨PollerLoc.stopped, CloseLoc.returned⟩ : Sys).poller = PollerLoc.stopped ∧
    (([] : List (PollLabel × Sys)).map Prod.fst).contains PollLabel.writeGauges = false :=
  c9_close_handshake
    [(PollLabel.tickFire, ⟨PollerLoc.writing, CloseLoc.notCalled⟩),
      (PollLabel.closeCall, ⟨PollerLoc.writing, CloseLoc.sending⟩),
      (PollLabel.writeGauges, ⟨PollerLoc.selecting, CloseLoc.sending⟩),
      (PollLabel.stopRendezvous, ⟨PollerLoc.stopped, CloseLoc.unregistering⟩)]
    ⟨PollerLoc.stopped, CloseLoc.returned⟩ []
    ⟨SysStep.tick _, SysStep.callClose _, SysStep.write _, SysStep.rendezvous,
      SysStep.finish _, trivial⟩

/-- C10: for a facade built with a non-empty identifier whose poller
was never started — non-positive polling interval, non-Linux platform,
or failed address resolution — the done channel is nil, so close skips
the stop-signal send and still unregisters the metrics; and for any
facade, close sends the stop signal exactly when the done channel
exists, i.e. when a poller task was started. -/
theorem c10_close_without_poller (id : String) (device : List Char) (buflen : Nat)
    (poll : Int) (goos : String) (lookup : List Char → Option (List (List Nat)))
    (f : InputMetrics)
    (hid : id ≠ "")
    (h : poll ≤ 0 ∨ goos ≠ "linux" ∨ resolveAddr lookup device = none) :
    (newInputMetrics id device buflen poll goos lookup).map InputMetrics.done = some false ∧
    closeEffect (newInputMetrics id device buflen poll goos lookup) =
      ⟨false, true⟩ ∧
    (closeEffect (some f)).stopSent = f.done := by
  have key : newInputMetrics id device buflen poll goos lookup
      = some (freshMetrics device buflen) := by
    unfold newInputMetrics
    rw [if_neg hid]
    rcases h with h | h | h
    · rw [if_neg (fun hc => absurd hc.1 (by omega))]
    · rw [if_neg (fun hc => h hc.2)]
    · by_cases hc : 0 < poll ∧ goos = "linux"
      · rw [if_pos hc, h]
      · rw [if_neg hc]
  rw [key]
  exact ⟨rfl, rfl, rfl⟩

/-- Witness for C10 at a zero polling interval on linux, where address
resolution itself would succeed: the eligibility gate alone keeps the
poller unstarted and close still unregisters without sending. -/
theorem c10_close_without_poller_witness :
    (newInputMetrics "id" ("127.0.0.1:8080".toList) 1 0 "linux" lookupLoopback).map
      InputMetrics.done = some false ∧
    closeEffect (newInputMetrics "id" ("127.0.0.1:8080".toList) 1 0 "linux" lookupLoopback) =
      ⟨false, true⟩ ∧
    (closeEffect (some (freshMetrics [] 0))).stopSent = (freshMetrics [] 0).done :=
  c10_close_without_poller "id" ("127.0.0.1:8080".toList) 1 0 "linux" lookupLoopback
    (freshMetrics [] 0) (by decide) (Or.inl (by decide))
